import Mathlib

/-!
Verification of the session-orchestration core of the sniaff-android-mcp
repository. The definitions below are a shallow embedding of the TypeScript
sources: the Session Manager (src/src/core/session-manager.ts), the Emulator
Adapter (the adapter part of src/unnamed/part_003) and the device-targeting
tool handlers. Components whose sources are not present in the repository
snapshot (Process Supervisor, Port Finder, Workspace Manager, config and
input schemas) are modelled from the specification, each with a doc comment
saying so.
-/

/-- Lifecycle states of a session, from the SessionState enum used by
src/src/core/session-manager.ts. -/
inductive SessionState where
  | SETUP_AVD
  | CREATE_WORKSPACE
  | START_EMULATOR
  | WAIT_BOOT
  | READY
  | ERROR
deriving DecidableEq, Repr

/-- Machine-readable error kinds (ErrorCode in src/src/types/errors.ts, as
referenced from the sources present in the snapshot). -/
inductive ErrCode where
  | SESSION_NOT_FOUND
  | INVALID_ARGUMENT
  | AVD_NOT_FOUND
  | EMULATOR_BINARY_NOT_FOUND
  | ADB_NOT_FOUND
  | EMULATOR_START_FAILED
  | EMULATOR_BOOT_TIMEOUT
  | PROXY_CONFIG_FAILED
  | ADB_COMMAND_FAILED
  | INTERNAL_ERROR
deriving DecidableEq, Repr

/-- The Session record held in the Session Manager registry
(src/src/core/session-manager.ts lines 81-90 construct it). -/
structure Session where
  sessionId : String
  avdName : String
  emulatorPort : Int
  adbPort : Int
  createdAt : String
  state : SessionState
  workspacePath : String
  emulatorPid : Option Nat
deriving DecidableEq, Repr

/-- Association-list lookup; models reading a JS Map keyed by strings
(the `sessions` Map of the Session Manager and the persisted metadata). -/
def alGet {α : Type} (r : List (String × α)) (k : String) : Option α :=
  match r with
  | [] => none
  | e :: rest => if e.1 = k then some e.2 else alGet rest k

/-- Association-list update; models JS Map.set: replace the value at an
existing key in place, otherwise append the new entry. -/
def alSet {α : Type} (k : String) (v : α) : List (String × α) → List (String × α)
  | [] => [(k, v)]
  | e :: rest => if e.1 = k then (k, v) :: rest else e :: alSet k v rest

/-- Association-list delete; models JS Map.delete. -/
def alDel {α : Type} (k : String) : List (String × α) → List (String × α)
  | [] => []
  | e :: rest => if e.1 = k then alDel k rest else e :: alDel k rest

theorem alGet_alSet_self {α : Type} (k : String) (v : α) (r : List (String × α)) :
    alGet (alSet k v r) k = some v := by
  induction r with
  | nil => simp [alGet, alSet]
  | cons e rest ih =>
    by_cases h : e.1 = k
    · simp [alGet, alSet, h]
    · simp [alGet, alSet, h, ih]

theorem alGet_alDel_self {α : Type} (k : String) (r : List (String × α)) :
    alGet (alDel k r) k = none := by
  induction r with
  | nil => simp [alGet, alDel]
  | cons e rest ih =>
    by_cases h : e.1 = k
    · simp [alDel, h, ih]
    · simp [alGet, alDel, h, ih]

theorem mem_alSet_self {α : Type} (k : String) (v : α) (r : List (String × α)) :
    (k, v) ∈ alSet k v r := by
  induction r with
  | nil => simp [alSet]
  | cons e rest ih =>
    by_cases h : e.1 = k
    · simp [alSet, h]
    · simp [alSet, h]
      right
      exact ih

theorem mem_of_mem_alSet {α : Type} {k : String} {v : α} {r : List (String × α)}
    {e : String × α} (h : e ∈ alSet k v r) : e = (k, v) ∨ e ∈ r := by
  induction r with
  | nil => simpa [alSet] using h
  | cons e0 rest ih =>
    by_cases h0 : e0.1 = k
    · simp only [alSet, h0, if_pos] at h
      rcases List.mem_cons.mp h with h1 | h1
      · exact Or.inl h1
      · exact Or.inr (List.mem_cons_of_mem _ h1)
    · simp only [alSet, h0, if_neg, not_false_iff] at h
      rcases List.mem_cons.mp h with h1 | h1
      · exact Or.inr (by simp [h1])
      · rcases ih h1 with h2 | h2
        · exact Or.inl h2
        · exact Or.inr (List.mem_cons_of_mem _ h2)

theorem mem_of_mem_alDel {α : Type} {k : String} {r : List (String × α)}
    {e : String × α} (h : e ∈ alDel k r) : e ∈ r := by
  induction r with
  | nil => simp [alDel] at h
  | cons e0 rest ih =>
    by_cases h0 : e0.1 = k
    · simp only [alDel, h0, if_pos] at h
      exact List.mem_cons_of_mem _ (ih h)
    · simp only [alDel, h0, if_neg, not_false_iff] at h
      rcases List.mem_cons.mp h with h1 | h1
      · simp [h1]
      · exact List.mem_cons_of_mem _ (ih h1)

theorem alGet_mem {α : Type} {r : List (String × α)} {k : String} {v : α}
    (h : alGet r k = some v) : (k, v) ∈ r := by
  induction r with
  | nil => simp [alGet] at h
  | cons e rest ih =>
    by_cases h0 : e.1 = k
    · simp only [alGet, h0, if_pos, Option.some.injEq] at h
      have he : e = (k, v) := by
        cases e
        simp_all
      rw [← he]
      exact List.mem_cons_self _ _
    · simp only [alGet, h0, if_neg, not_false_iff] at h
      exact List.mem_cons_of_mem _ (ih h)

/-- Membership check for the list of live process ids held by the Process
Supervisor. Modelled from the spec: section 4.2 exposes isRunning(pid). -/
def isRunning (p : Nat) (r : List Nat) : Bool :=
  match r with
  | [] => false
  | q :: rest => if q = p then true else isRunning p rest

/-- Termination of a tracked process. Modelled from the spec: section 4.2,
kill(pid) is idempotent, killing an already-dead or unknown pid is a no-op. -/
def killPid (p : Nat) : List Nat → List Nat
  | [] => []
  | q :: rest => if q = p then killPid p rest else q :: killPid p rest

theorem isRunning_killPid_self (p : Nat) (r : List Nat) :
    isRunning p (killPid p r) = false := by
  induction r with
  | nil => simp [isRunning, killPid]
  | cons q rest ih =>
    by_cases h : q = p
    · simp [killPid, h, ih]
    · simp [killPid, isRunning, h, ih]

/-- Removal of a workspace directory from the set of existing workspace
directories. Modelled from the spec: section 4.6, cleanup(sessionId)
recursively removes the directory tree, a missing directory is not an
error. -/
def removeWs (sid : String) : List String → List String
  | [] => []
  | d :: rest => if d = sid then removeWs sid rest else d :: removeWs sid rest

theorem not_mem_removeWs_self (sid : String) (l : List String) :
    sid ∉ removeWs sid l := by
  induction l with
  | nil => simp [removeWs]
  | cons d rest ih =>
    by_cases h : d = sid
    · simp [removeWs, h, ih]
    · simp [removeWs, h, ih]
      intro hc
      exact h hc.symm

/-- Prefix test on character lists (helper for the substring test below). -/
def charListPre : List Char → List Char → Bool
  | [], _ => true
  | _ :: _, [] => false
  | a :: as, b :: bs => if a = b then charListPre as bs else false

/-- Substring test on character lists (helper for strContains). -/
def charListSub : List Char → List Char → Bool
  | pat, [] => charListPre pat []
  | pat, c :: rest => if charListPre pat (c :: rest) then true else charListSub pat rest

/-- Substring containment on strings; models the JS String.prototype.includes
calls made by the adapter (for example stdout.includes in part_003). -/
def strContains (s pat : String) : Bool :=
  charListSub pat.toList s.toList

/-- Whitespace trimming at both ends; models the JS String.prototype.trim
call made on the getprop output in EmulatorAdapter.waitForBoot. -/
def strTrim (s : String) : String :=
  ⟨((s.toList.dropWhile Char.isWhitespace).reverse.dropWhile Char.isWhitespace).reverse⟩

/-- Embeds EmulatorAdapter.checkRootStatus (src/unnamed/part_003 lines
357-382). The argument is the outcome of the privileged identity command
(adb shell su -c id): an error value when the command failed, or its
stdout. The source returns stdout.includes of the marker uid=0 on success
and false from the catch block on any failure. -/
def checkRootStatus (execResult : Except String String) : Bool :=
  match execResult with
  | .ok stdout => strContains stdout "uid=0"
  | .error _ => false

/-- The root user identity marker is present in a successful command output. -/
def rootMarkerPresent (r : Except String String) : Prop :=
  ∃ out, r = Except.ok out ∧ strContains out "uid=0" = true

/-- The property claimed of checkRootStatus: a true result implies the
privileged command succeeded with the uid=0 marker in its output, and every
command failure yields false (the function is total, so no error is ever
propagated). -/
def rootCheckClaim (r : Except String String) : Prop :=
  (checkRootStatus r = true → rootMarkerPresent r) ∧
  (∀ e, r = Except.error e → checkRootStatus r = false)

/-- C8: for every adbPort, checkRootStatus returns true only if the output of
the privileged identity command contains the root user identity marker
(uid=0), and any failure of that command yields the result false rather than
a propagated error; the embedding is a total Bool-valued function, so
checkRootStatus never throws. -/
theorem c8_checkRootStatus : ∀ r : Except String String, rootCheckClaim r := by
  intro r
  constructor
  · intro h
    cases r with
    | ok out => exact ⟨out, rfl, h⟩
    | error e => simp [checkRootStatus] at h
  · intro e he
    subst he
    rfl

/-- The documented fixed transform from the companion (adb) port to the
device id (spec section 9): deviceId = "emulator-" + (companionPort - 1). -/
def deviceIdOf (adbPort : Int) : String := "emulator-" ++ toString (adbPort - 1)

/-- Device id derivation in EmulatorAdapter.waitForBoot (part_003 line 251). -/
def waitForBootDeviceId (adbPort : Int) : String := "emulator-" ++ toString (adbPort - 1)

/-- Device id derivation in EmulatorAdapter.setProxy (part_003 line 319). -/
def setProxyDeviceId (adbPort : Int) : String := "emulator-" ++ toString (adbPort - 1)

/-- Device id derivation in EmulatorAdapter.clearProxy (part_003 line 337). -/
def clearProxyDeviceId (adbPort : Int) : String := "emulator-" ++ toString (adbPort - 1)

/-- Device id derivation in EmulatorAdapter.checkRootStatus (part_003 line 358). -/
def checkRootDeviceId (adbPort : Int) : String := "emulator-" ++ toString (adbPort - 1)

/-- Device id derivation in EmulatorAdapter.installMagiskModule (part_003 line 389). -/
def installMagiskModuleDeviceId (adbPort : Int) : String := "emulator-" ++ toString (adbPort - 1)

/-- Device id derivation in EmulatorAdapter.installMitmCertificate (part_003 line 432). -/
def installMitmCertificateDeviceId (adbPort : Int) : String := "emulator-" ++ toString (adbPort - 1)

/-- Device id derivation in EmulatorAdapter.reboot (part_003 line 509). -/
def rebootDeviceId (adbPort : Int) : String := "emulator-" ++ toString (adbPort - 1)

/-- Device id derivation in the input-text tool handler
(src/src/tools/input-text-tool.ts line 33). -/
def inputTextToolDeviceId (adbPort : Int) : String := "emulator-" ++ toString (adbPort - 1)

/-- Device id derivation in the key-event tool handler (part_001 line 90). -/
def keyEventToolDeviceId (adbPort : Int) : String := "emulator-" ++ toString (adbPort - 1)

/-- Device id derivation in the install-mitm-cert tool handler (part_002 line 32). -/
def installMitmCertToolDeviceId (adbPort : Int) : String := "emulator-" ++ toString (adbPort - 1)

/-- C9: every consumer that targets the device derives the device id by the
same fixed transform deviceId = "emulator-" + (companionPort - 1) from the
session companion (adb) port: the boot-wait, proxy set and clear, root-check,
Magisk-module install, certificate install and reboot operations of the
emulator adapter, and the input-text, key-event and install-mitm-cert peer
tool handlers. -/
theorem c9_device_id_uniform : ∀ p : Int,
    waitForBootDeviceId p = deviceIdOf p ∧
    setProxyDeviceId p = deviceIdOf p ∧
    clearProxyDeviceId p = deviceIdOf p ∧
    checkRootDeviceId p = deviceIdOf p ∧
    installMagiskModuleDeviceId p = deviceIdOf p ∧
    installMitmCertificateDeviceId p = deviceIdOf p ∧
    rebootDeviceId p = deviceIdOf p ∧
    inputTextToolDeviceId p = deviceIdOf p ∧
    keyEventToolDeviceId p = deviceIdOf p ∧
    installMitmCertToolDeviceId p = deviceIdOf p := by
  intro p
  exact ⟨rfl, rfl, rfl, rfl, rfl, rfl, rfl, rfl, rfl, rfl⟩

/-- Observable state shared by the Session Manager and its collaborators:
the in-memory session registry (the sessions Map), the set of process ids
the Process Supervisor reports as running, the set of existing per-session
workspace directories (identified by session id) and the state field of each
persisted workspace metadata record. -/
structure World where
  registry : List (String × Session)
  running : List Nat
  workspaces : List String
  metaState : List (String × SessionState)
deriving DecidableEq, Repr

/-- The initial world: empty registry, no processes, no workspaces. -/
def emptyWorld : World := ⟨[], [], [], []⟩

/-- Workspace path for a session. Modelled from the spec: section 8 places
the workspace directory at workspacesDir/sessionId; the configurable root is
abbreviated to a constant since the config source is absent. -/
def wsPathOf (sid : String) : String := "workspaces/" ++ sid

/-- Outcome of EmulatorAdapter.start as observed by the Session Manager:
either success with a process id and console port (the companion port is
consolePort + 1, part_003 line 175), a failure before any process was
spawned, or a spawn whose process exited during the settle delay (part_003
lines 210-219: the adapter then throws EMULATOR_START_FAILED and the process
is already dead). -/
inductive EmStartOutcome where
  | ok (pid : Nat) (consolePort : Int)
  | failNoSpawn (code : ErrCode)
  | failSpawnedDead (pid : Nat)
deriving Repr

/-- Outcomes of the awaited collaborator calls made by one startSession run,
in program order: AVD setup, workspace creation, emulator start, boot wait
and the final metadata write. Each failing call surfaces as a typed error
(SniaffError) carried here as its ErrCode. -/
structure StartEnv where
  avdSetup : Except ErrCode String
  createWs : Except ErrCode Unit
  emStart : EmStartOutcome
  boot : Except ErrCode Unit
  persist : Except ErrCode Unit
  now : String

/-- The SessionStartResult value returned on success
(src/src/core/session-manager.ts lines 134-141). -/
structure StartResult where
  sessionId : String
  workspacePath : String
  emulatorPort : Int
  adbPort : Int
  state : SessionState
deriving DecidableEq, Repr

/-- One completed startSession run: the final world, the stateChange events
emitted by updateState in order, the worlds observable at the await points of
the run (awaiting AVD setup, workspace creation, emulator start, boot wait
and the final metadata write, in that order, as far as the run got), and the
returned result or thrown error. -/
structure StartRun where
  world : World
  events : List (String × SessionState)
  awaitWorlds : List World
  result : Except ErrCode StartResult
deriving Repr

/-- Embeds SessionManager.rollback (src/src/core/session-manager.ts lines
174-202) applied to a non-null session: the session object state is set to
ERROR, the emulator process is stopped via supervisor kill when the session
has a recorded pid (stop errors are caught and logged), the workspace
metadata state is updated to ERROR (errors ignored; the workspace directory
itself is not touched), and the registry entry is deleted. The caller
(the catch block of startSession, lines 148-166) then rethrows the error. -/
def rollbackRun (s : Session) (w : World) (ev : List (String × SessionState))
    (aw : List World) (e : ErrCode) : StartRun :=
  let sErr : Session := { s with state := SessionState.ERROR }
  let wA : World := { w with registry := alSet s.sessionId sErr w.registry }
  let wB : World :=
    match s.emulatorPid with
    | some pid => { wA with running := killPid pid wA.running }
    | none => wA
  let wC : World := { wB with metaState := alSet s.sessionId SessionState.ERROR wB.metaState }
  let wD : World := { wC with registry := alDel s.sessionId wC.registry }
  ⟨wD, ev, aw, .error e⟩

/-- Embeds SessionManager.startSession (src/src/core/session-manager.ts lines
54-167). Each updateState call appends a (sessionId, state) event. The
session object is inserted into the registry right after workspace creation
with placeholder ports 0, adbPort 0 and a null pid (lines 81-91), and is
mutated in place afterwards, which the embedding renders as registry updates.
On any failure the catch block runs rollback and rethrows the typed error.
The outcomes of the awaited collaborator calls are supplied by env. -/
def startSession (env : StartEnv) (sid : String) (w0 : World) : StartRun :=
  let ev1 := [(sid, SessionState.SETUP_AVD)]
  match env.avdSetup with
  | .error e => ⟨w0, ev1, [w0], .error e⟩
  | .ok avdName =>
    let ev2 := ev1 ++ [(sid, SessionState.CREATE_WORKSPACE)]
    match env.createWs with
    | .error e => ⟨w0, ev2, [w0, w0], .error e⟩
    | .ok _ =>
      let wsPath := wsPathOf sid
      let w1 : World := { w0 with workspaces := w0.workspaces ++ [sid] }
      let s0 : Session :=
        { sessionId := sid, avdName := avdName, emulatorPort := 0, adbPort := 0,
          createdAt := env.now, state := SessionState.CREATE_WORKSPACE,
          workspacePath := wsPath, emulatorPid := none }
      let w2 : World := { w1 with registry := alSet sid s0 w1.registry }
      let ev3 := ev2 ++ [(sid, SessionState.START_EMULATOR)]
      let s1 : Session := { s0 with state := SessionState.START_EMULATOR }
      let w3 : World := { w2 with registry := alSet sid s1 w2.registry }
      match env.emStart with
      | .failNoSpawn e => rollbackRun s1 w3 ev3 [w0, w0, w3] e
      | .failSpawnedDead _ =>
          rollbackRun s1 w3 ev3 [w0, w0, w3] ErrCode.EMULATOR_START_FAILED
      | .ok pid cport =>
        let s2 : Session :=
          { s1 with emulatorPort := cport, adbPort := cport + 1, emulatorPid := some pid }
        let w4 : World :=
          { w3 with registry := alSet sid s2 w3.registry, running := w3.running ++ [pid] }
        let ev4 := ev3 ++ [(sid, SessionState.WAIT_BOOT)]
        let s3 : Session := { s2 with state := SessionState.WAIT_BOOT }
        let w5 : World := { w4 with registry := alSet sid s3 w4.registry }
        match env.boot with
        | .error e => rollbackRun s3 w5 ev4 [w0, w0, w3, w5] e
        | .ok _ =>
          let ev5 := ev4 ++ [(sid, SessionState.READY)]
          let s4 : Session := { s3 with state := SessionState.READY }
          let w6 : World := { w5 with registry := alSet sid s4 w5.registry }
          match env.persist with
          | .error e => rollbackRun s4 w6 ev5 [w0, w0, w3, w5, w6] e
          | .ok _ =>
            let w7 : World := { w6 with metaState := alSet sid SessionState.READY w6.metaState }
            ⟨w7, ev5, [w0, w0, w3, w5, w6],
              .ok ⟨sid, wsPath, s4.emulatorPort, s4.adbPort, SessionState.READY⟩⟩

/-- Embeds SessionManager.getSession (src/src/core/session-manager.ts lines
204-206): a pure registry lookup. -/
def getSession (sid : String) (w : World) : Option Session := alGet w.registry sid

/-- Embeds SessionManager.getAllSessions (src/src/core/session-manager.ts
lines 208-210): the registry values. -/
def getAllSessions (w : World) : List Session := w.registry.map (fun e => e.2)

/-- Embeds SessionManager.stopSession (src/src/core/session-manager.ts lines
212-230): unknown id throws SESSION_NOT_FOUND before any mutation; otherwise
the emulator process is killed when a pid is recorded (supervisor kill is a
no-op on an already-dead pid, spec section 4.2), the workspace directory tree
including its metadata record is removed (spec section 4.6), and the
registry entry is deleted. -/
def stopSession (sid : String) (w : World) : Except ErrCode Unit × World :=
  match alGet w.registry sid with
  | none => (Except.error ErrCode.SESSION_NOT_FOUND, w)
  | some s =>
    let w1 : World :=
      match s.emulatorPid with
      | some pid => { w with running := killPid pid w.running }
      | none => w
    let w2 : World :=
      { w1 with workspaces := removeWs sid w1.workspaces, metaState := alDel sid w1.metaState }
    let w3 : World := { w2 with registry := alDel sid w2.registry }
    (Except.ok (), w3)

/-- The pid handed out by the emulator-start step, when one was spawned. -/
def launchedPid (env : StartEnv) : Option Nat :=
  match env.emStart with
  | .ok pid _ => some pid
  | .failSpawnedDead pid => some pid
  | .failNoSpawn _ => none

/-- The process supervisor reports not-running for the pid launched by the
run, if any. -/
def pidNotRunning (env : StartEnv) (r : List Nat) : Prop :=
  ∀ p, launchedPid env = some p → isRunning p r = false

/-- C1: for every startSession call that fails at any step after the
workspace is created (emulator start, boot wait, or final metadata
persistence), rollback runs to completion: a subsequent getSession for the
session id returns not-found (the registry entry is removed), the workspace
directory is not deleted, the workspace metadata record is updated to the
ERROR marker, and the process supervisor reports not-running for the
launched pid if one exists. The freshness hypothesis states that a pid whose
process exited during the settle delay was not some unrelated pid already
running before the call. -/
theorem c1_rollback_complete (env : StartEnv) (sid : String) (w0 : World)
    (a : String) (ec : ErrCode)
    (hA : env.avdSetup = Except.ok a)
    (hW : env.createWs = Except.ok ())
    (hFail : (startSession env sid w0).result = Except.error ec)
    (hFresh : ∀ p, env.emStart = EmStartOutcome.failSpawnedDead p →
      isRunning p w0.running = false) :
    getSession sid (startSession env sid w0).world = none ∧
    sid ∈ (startSession env sid w0).world.workspaces ∧
    alGet (startSession env sid w0).world.metaState sid = some SessionState.ERROR ∧
    pidNotRunning env (startSession env sid w0).world.running := by
  cases hE : env.emStart with
  | failNoSpawn e =>
    simp only [startSession, hA, hW, hE, rollbackRun, getSession]
    refine ⟨alGet_alDel_self _ _, by simp, alGet_alSet_self _ _ _, ?_⟩
    intro p hp
    simp [launchedPid, hE] at hp
  | failSpawnedDead pid =>
    simp only [startSession, hA, hW, hE, rollbackRun, getSession]
    refine ⟨alGet_alDel_self _ _, by simp, alGet_alSet_self _ _ _, ?_⟩
    intro p hp
    simp only [launchedPid, hE, Option.some.injEq] at hp
    subst hp
    exact hFresh pid hE
  | ok pid cport =>
    cases hB : env.boot with
    | error e =>
      simp only [startSession, hA, hW, hE, hB, rollbackRun, getSession]
      refine ⟨alGet_alDel_self _ _, by simp, alGet_alSet_self _ _ _, ?_⟩
      intro p hp
      simp only [launchedPid, hE, Option.some.injEq] at hp
      subst hp
      exact isRunning_killPid_self _ _
    | ok u =>
      cases hP : env.persist with
      | error e =>
        simp only [startSession, hA, hW, hE, hB, hP, rollbackRun, getSession]
        refine ⟨alGet_alDel_self _ _, by simp, alGet_alSet_self _ _ _, ?_⟩
        intro p hp
        simp only [launchedPid, hE, Option.some.injEq] at hp
        subst hp
        exact isRunning_killPid_self _ _
      | ok v =>
        simp only [startSession, hA, hW, hE, hB, hP] at hFail
        exact absurd hFail (by simp)

/-- Environment for the C1 witness: a run that fails at the boot-wait step
after a successful emulator start. -/
def c1WitnessEnv : StartEnv :=
  { avdSetup := Except.ok "SniaffPhone", createWs := Except.ok (),
    emStart := EmStartOutcome.ok 7 5554,
    boot := Except.error ErrCode.EMULATOR_BOOT_TIMEOUT,
    persist := Except.ok (), now := "2024-01-01T00:00:00Z" }

/-- Witness for C1 at a concrete boot-timeout run. -/
theorem c1_rollback_complete_witness :
    getSession "s1" (startSession c1WitnessEnv "s1" emptyWorld).world = none ∧
    "s1" ∈ (startSession c1WitnessEnv "s1" emptyWorld).world.workspaces ∧
    alGet (startSession c1WitnessEnv "s1" emptyWorld).world.metaState "s1"
        = some SessionState.ERROR ∧
    pidNotRunning c1WitnessEnv (startSession c1WitnessEnv "s1" emptyWorld).world.running :=
  c1_rollback_complete c1WitnessEnv "s1" emptyWorld "SniaffPhone"
    ErrCode.EMULATOR_BOOT_TIMEOUT rfl rfl rfl (fun _ h => nomatch h)

/-- The five forward lifecycle states in protocol order, as event payloads of
one session. -/
def canonicalEvents (sid : String) : List (String × SessionState) :=
  [(sid, SessionState.SETUP_AVD), (sid, SessionState.CREATE_WORKSPACE),
   (sid, SessionState.START_EMULATOR), (sid, SessionState.WAIT_BOOT),
   (sid, SessionState.READY)]

/-- How many forward-state events a run emits, determined by the first
failing step: each updateState call precedes the awaited step it announces,
and the READY event precedes the final metadata write. -/
def progressOf (env : StartEnv) : Nat :=
  match env.avdSetup with
  | .error _ => 1
  | .ok _ =>
    match env.createWs with
    | .error _ => 2
    | .ok _ =>
      match env.emStart with
      | .failNoSpawn _ => 3
      | .failSpawnedDead _ => 3
      | .ok _ _ =>
        match env.boot with
        | .error _ => 4
        | .ok _ => 5

/-- C6 (amended): for every startSession call the emitted event trace is
exactly a prefix of SETUP_AVD, CREATE_WORKSPACE, START_EMULATOR, WAIT_BOOT,
READY, cut at the first failing step, so the forward states are traversed
strictly in order with no skipping or reordering and each forward transition
is observable via a stateChange event carrying the session id and the new
state; no event carrying the ERROR state is ever emitted — the transition to
ERROR performed by rollback is recorded in the session object and the
workspace metadata only. -/
theorem c6_forward_events_only (env : StartEnv) (sid : String) (w0 : World) :
    (startSession env sid w0).events = (canonicalEvents sid).take (progressOf env) ∧
    (sid, SessionState.ERROR) ∉ (startSession env sid w0).events := by
  cases hA : env.avdSetup with
  | error e => simp [startSession, hA, canonicalEvents, progressOf]
  | ok a =>
    cases hW : env.createWs with
    | error e => simp [startSession, hA, hW, canonicalEvents, progressOf]
    | ok u =>
      cases hE : env.emStart with
      | failNoSpawn e =>
        simp [startSession, hA, hW, hE, canonicalEvents, progressOf, rollbackRun]
      | failSpawnedDead pid =>
        simp [startSession, hA, hW, hE, canonicalEvents, progressOf, rollbackRun]
      | ok pid cport =>
        cases hB : env.boot with
        | error e =>
          simp [startSession, hA, hW, hE, hB, canonicalEvents, progressOf, rollbackRun]
        | ok u2 =>
          cases hP : env.persist with
          | error e =>
            simp [startSession, hA, hW, hE, hB, hP, canonicalEvents, progressOf, rollbackRun]
          | ok v =>
            simp [startSession, hA, hW, hE, hB, hP, canonicalEvents, progressOf]

/-- Environment for the C6 counterexample: a run whose emulator-start step
fails, so rollback moves the session to ERROR. -/
def c6FailEnv : StartEnv :=
  { avdSetup := Except.ok "SniaffPhone", createWs := Except.ok (),
    emStart := EmStartOutcome.failNoSpawn ErrCode.EMULATOR_START_FAILED,
    boot := Except.ok (), persist := Except.ok (), now := "2024-01-01T00:00:00Z" }

/-- Counterexample to C6 as stated: in this concrete failing run the session
transitions to ERROR (the rollback wrote the ERROR marker into the workspace
metadata and the run failed), yet no event notification carrying
(sessionId, ERROR) was emitted, so the transition to ERROR is not observable
via an event notification. -/
theorem c6_error_transition_not_emitted :
    (startSession c6FailEnv "s1" emptyWorld).result
        = Except.error ErrCode.EMULATOR_START_FAILED ∧
    alGet (startSession c6FailEnv "s1" emptyWorld).world.metaState "s1"
        = some SessionState.ERROR ∧
    ("s1", SessionState.ERROR) ∉ (startSession c6FailEnv "s1" emptyWorld).events := by
  refine ⟨rfl, rfl, ?_⟩
  decide

/-- Helper: the device id of the placeholder companion port 0. -/
theorem deviceIdOf_zero : deviceIdOf 0 = "emulator--1" := by decide

/-- The observable in-flight registry content claimed by C10: while the run
is suspended on the emulator-start await (the third await point), getSession
and the session listing already return the inserted session, whose ports are
the placeholder 0, whose pid is null, and whose derived device id is the
meaningless "emulator--1". -/
def pendingObservable (run : StartRun) (sid : String) : Prop :=
  ∃ w, run.awaitWorlds[2]? = some w ∧
    ∃ s, getSession sid w = some s ∧ s ∈ getAllSessions w ∧
      s.emulatorPort = 0 ∧ s.adbPort = 0 ∧ s.emulatorPid = none ∧
      deviceIdOf s.adbPort = "emulator--1"

/-- C10: between the workspace-creation step and the completion of the
emulator-start step of an in-flight startSession, the session is already
present in the registry with emulatorPort 0, adbPort 0 and emulatorPid null,
so getSession and the session listing can return a not-yet-ready session
whose ports are the placeholder 0 and whose derived device id would be
"emulator--1". -/
theorem c10_pending_placeholder (env : StartEnv) (sid : String) (w0 : World)
    (a : String)
    (hA : env.avdSetup = Except.ok a)
    (hW : env.createWs = Except.ok ()) :
    pendingObservable (startSession env sid w0) sid := by
  unfold pendingObservable
  cases hE : env.emStart with
  | failNoSpawn e =>
    simp only [startSession, hA, hW, hE, rollbackRun]
    exact ⟨_, rfl, _, alGet_alSet_self _ _ _,
      List.mem_map.mpr ⟨_, mem_alSet_self _ _ _, rfl⟩, rfl, rfl, rfl, deviceIdOf_zero⟩
  | failSpawnedDead pid =>
    simp only [startSession, hA, hW, hE, rollbackRun]
    exact ⟨_, rfl, _, alGet_alSet_self _ _ _,
      List.mem_map.mpr ⟨_, mem_alSet_self _ _ _, rfl⟩, rfl, rfl, rfl, deviceIdOf_zero⟩
  | ok pid cport =>
    cases hB : env.boot with
    | error e =>
      simp only [startSession, hA, hW, hE, hB, rollbackRun]
      exact ⟨_, rfl, _, alGet_alSet_self _ _ _,
        List.mem_map.mpr ⟨_, mem_alSet_self _ _ _, rfl⟩, rfl, rfl, rfl, deviceIdOf_zero⟩
    | ok u =>
      cases hP : env.persist with
      | error e =>
        simp only [startSession, hA, hW, hE, hB, hP, rollbackRun]
        exact ⟨_, rfl, _, alGet_alSet_self _ _ _,
          List.mem_map.mpr ⟨_, mem_alSet_self _ _ _, rfl⟩, rfl, rfl, rfl, deviceIdOf_zero⟩
      | ok v =>
        simp only [startSession, hA, hW, hE, hB, hP]
        exact ⟨_, rfl, _, alGet_alSet_self _ _ _,
          List.mem_map.mpr ⟨_, mem_alSet_self _ _ _, rfl⟩, rfl, rfl, rfl, deviceIdOf_zero⟩

/-- Environment for the C10 witness: a fully successful run. -/
def c10WitnessEnv : StartEnv :=
  { avdSetup := Except.ok "SniaffPhone", createWs := Except.ok (),
    emStart := EmStartOutcome.ok 8 5556, boot := Except.ok (),
    persist := Except.ok (), now := "2024-01-02T00:00:00Z" }

/-- Witness for C10 at a concrete successful run. -/
theorem c10_pending_placeholder_witness :
    pendingObservable (startSession c10WitnessEnv "s2" emptyWorld) "s2" :=
  c10_pending_placeholder c10WitnessEnv "s2" emptyWorld "SniaffPhone" rfl rfl

/-- C3: for every session id not present in the registry, stopSession fails
with the SESSION_NOT_FOUND error and has no side effects: the returned world
is exactly the input world, so the registry, every process and every
workspace are left unchanged. -/
theorem c3_stop_unknown (sid : String) (w : World)
    (h : getSession sid w = none) :
    stopSession sid w = (Except.error ErrCode.SESSION_NOT_FOUND, w) := by
  unfold getSession at h
  simp [stopSession, h]

/-- Witness for C3 at a concrete unknown id. -/
theorem c3_stop_unknown_witness :
    stopSession "ghost" emptyWorld = (Except.error ErrCode.SESSION_NOT_FOUND, emptyWorld) :=
  c3_stop_unknown "ghost" emptyWorld rfl

/-- The pid recorded in a stopped session is reported not-running. -/
def stoppedPidNotRunning (s : Session) (r : List Nat) : Prop :=
  ∀ p, s.emulatorPid = some p → isRunning p r = false

/-- C4: for every session id present in the registry, stopSession succeeds,
terminates the associated process when one is recorded (killing an
already-dead process is a no-op, not an error, so a partial failure while
stopping cannot block the rest), deletes the workspace directory tree and
removes the registry entry, and getSession for the same id immediately after
returns not-found. -/
theorem c4_stop_known (sid : String) (w : World) (s : Session)
    (h : getSession sid w = some s) :
    (stopSession sid w).1 = Except.ok () ∧
    getSession sid (stopSession sid w).2 = none ∧
    sid ∉ (stopSession sid w).2.workspaces ∧
    stoppedPidNotRunning s (stopSession sid w).2.running := by
  unfold getSession at h
  cases hp : s.emulatorPid with
  | none =>
    simp only [stopSession, h, hp, getSession]
    refine ⟨trivial, alGet_alDel_self _ _, not_mem_removeWs_self _ _, ?_⟩
    intro p hq
    rw [hp] at hq
    cases hq
  | some pid =>
    simp only [stopSession, h, hp, getSession]
    refine ⟨trivial, alGet_alDel_self _ _, not_mem_removeWs_self _ _, ?_⟩
    intro p hq
    rw [hp] at hq
    injection hq with hq
    subst hq
    exact isRunning_killPid_self _ _

/-- A ready session used by the C4 witness. -/
def c4Session : Session :=
  { sessionId := "s4", avdName := "SniaffPhone", emulatorPort := 5554, adbPort := 5555,
    createdAt := "2024-01-03T00:00:00Z", state := SessionState.READY,
    workspacePath := wsPathOf "s4", emulatorPid := some 9 }

/-- A world holding the C4 witness session with its live process and
workspace. -/
def c4World : World := ⟨[("s4", c4Session)], [9], ["s4"], [("s4", SessionState.READY)]⟩

/-- Witness for C4 at a concrete registered session. -/
theorem c4_stop_known_witness :
    (stopSession "s4" c4World).1 = Except.ok () ∧
    getSession "s4" (stopSession "s4" c4World).2 = none ∧
    "s4" ∉ (stopSession "s4" c4World).2.workspaces ∧
    stoppedPidNotRunning c4Session (stopSession "s4" c4World).2.running :=
  c4_stop_known "s4" c4World c4Session rfl

/-- Outcomes over time of the external adb invocations made by the boot
wait: whether the adb binary is missing (ENOENT on every invocation),
whether the device-enumeration command fails with a generic error at time t,
its stdout at time t, whether the boot-property command fails at time t, and
its stdout at time t. Time is measured in milliseconds from the waitForBoot
invocation; command executions are instantaneous and time advances only at
the polling delays. -/
structure BootEnv where
  adbMissing : Bool
  devicesErr : Nat → Bool
  adbDevicesOut : Nat → String
  getpropErr : Nat → Bool
  getpropOut : Nat → String

/-- The configurable boot poll interval (config.bootPollInterval), used by
the boot-property polling phase. -/
structure BootCfg where
  bootPollInterval : Nat

/-- Embeds EmulatorAdapter.waitForDevice (src/unnamed/part_003 lines
287-316): polls adb devices every 1000 ms while now minus its own startTime
is below the timeout; an ENOENT failure throws ADB_NOT_FOUND, any other
failure is swallowed and polling continues; when the deadline passes it
throws EMULATOR_BOOT_TIMEOUT. Fuel bounds the recursion; the result carries
the finishing time. -/
def waitForDevice (env : BootEnv) (deviceId : String) (timeout startTime : Nat) :
    Nat → Nat → Option (Except ErrCode Unit × Nat)
  | 0, _ => none
  | fuel+1, t =>
    if t - startTime < timeout then
      if env.adbMissing then some (.error .ADB_NOT_FOUND, t)
      else if env.devicesErr t then waitForDevice env deviceId timeout startTime fuel (t + 1000)
      else if strContains (env.adbDevicesOut t) deviceId then some (.ok (), t)
      else waitForDevice env deviceId timeout startTime fuel (t + 1000)
    else some (.error .EMULATOR_BOOT_TIMEOUT, t)

/-- Embeds the boot-completion polling loop of EmulatorAdapter.waitForBoot
(src/unnamed/part_003 lines 260-284): polls getprop sys.boot_completed every
bootPollInterval ms against the startTime recorded at the top of
waitForBoot; every command failure is swallowed; success requires the
trimmed stdout to equal "1"; when the deadline passes it throws
EMULATOR_BOOT_TIMEOUT. -/
def bootPollLoop (cfg : BootCfg) (env : BootEnv) (timeout startTime : Nat) :
    Nat → Nat → Option (Except ErrCode Unit × Nat)
  | 0, _ => none
  | fuel+1, t =>
    if t - startTime < timeout then
      if env.adbMissing then bootPollLoop cfg env timeout startTime fuel (t + cfg.bootPollInterval)
      else if env.getpropErr t then
        bootPollLoop cfg env timeout startTime fuel (t + cfg.bootPollInterval)
      else if strTrim (env.getpropOut t) = "1" then some (.ok (), t)
      else bootPollLoop cfg env timeout startTime fuel (t + cfg.bootPollInterval)
    else some (.error .EMULATOR_BOOT_TIMEOUT, t)

/-- Embeds EmulatorAdapter.waitForBoot (src/unnamed/part_003 lines 250-285):
derives the device id from the adb port, records startTime at invocation
(time 0), first waits for the device to appear in adb devices, then polls
the boot property; both phases measure their deadline from time 0, because
waitForDevice computes its own startTime at the moment it is called and no
time passes between the two Date.now reads. -/
def waitForBoot (cfg : BootCfg) (env : BootEnv) (adbPort : Int) (timeout : Nat)
    (fuel : Nat) : Option (Except ErrCode Unit × Nat) :=
  match waitForDevice env (waitForBootDeviceId adbPort) timeout 0 fuel 0 with
  | none => none
  | some (.error e, t) => some (.error e, t)
  | some (.ok _, t) => bootPollLoop cfg env timeout 0 fuel t

theorem waitForDevice_spec (env : BootEnv) (d : String) (T : Nat)
    (hMiss : env.adbMissing = false) :
    ∀ fuel t, T - t < fuel → t < T + 1000 →
      ∃ r tf, waitForDevice env d T 0 fuel t = some (r, tf) ∧
        ((r = Except.ok () ∧ tf < T) ∨
         (r = Except.error ErrCode.EMULATOR_BOOT_TIMEOUT ∧ T ≤ tf ∧ tf < T + 1000)) := by
  intro fuel
  induction fuel with
  | zero =>
    intro t h1 h2
    omega
  | succ n ih =>
    intro t h1 h2
    rw [waitForDevice]
    simp only [Nat.sub_zero]
    by_cases hlt : t < T
    · rw [if_pos hlt, hMiss]
      simp only [Bool.false_eq_true, if_false]
      by_cases hDE : env.devicesErr t
      · rw [if_pos hDE]
        exact ih (t + 1000) (by omega) (by omega)
      · rw [if_neg hDE]
        by_cases hInc : strContains (env.adbDevicesOut t) d
        · rw [if_pos hInc]
          exact ⟨Except.ok (), t, rfl, Or.inl ⟨rfl, hlt⟩⟩
        · rw [if_neg hInc]
          exact ih (t + 1000) (by omega) (by omega)
    · rw [if_neg hlt]
      exact ⟨_, t, rfl, Or.inr ⟨rfl, by omega, h2⟩⟩

theorem bootPollLoop_spec (cfg : BootCfg) (env : BootEnv) (T : Nat)
    (hNever : ∀ t, strTrim (env.getpropOut t) ≠ "1")
    (hI : 1 ≤ cfg.bootPollInterval) :
    ∀ fuel t, T - t < fuel → t < T + cfg.bootPollInterval →
      ∃ tf, bootPollLoop cfg env T 0 fuel t
          = some (Except.error ErrCode.EMULATOR_BOOT_TIMEOUT, tf) ∧
        T ≤ tf ∧ tf < T + cfg.bootPollInterval := by
  intro fuel
  induction fuel with
  | zero =>
    intro t h1 h2
    omega
  | succ n ih =>
    intro t h1 h2
    rw [bootPollLoop]
    simp only [Nat.sub_zero]
    by_cases hlt : t < T
    · rw [if_pos hlt]
      by_cases hM : env.adbMissing
      · rw [if_pos hM]
        exact ih (t + cfg.bootPollInterval) (by omega) (by omega)
      · rw [if_neg hM]
        by_cases hGE : env.getpropErr t
        · rw [if_pos hGE]
          exact ih (t + cfg.bootPollInterval) (by omega) (by omega)
        · rw [if_neg hGE, if_neg (hNever t)]
          exact ih (t + cfg.bootPollInterval) (by omega) (by omega)
    · rw [if_neg hlt]
      exact ⟨t, rfl, by omega, h2⟩

/-- The boot wait failed with the boot-timeout error kind at a time no later
than the stated bound. -/
def isBootTimeoutWithin (res : Option (Except ErrCode Unit × Nat)) (bound : Nat) : Prop :=
  ∃ tf, res = some (Except.error ErrCode.EMULATOR_BOOT_TIMEOUT, tf) ∧ tf ≤ bound

/-- C5: for every port and every timeout T, if the device never reports
boot-complete (the trimmed getprop output is never "1") and the adb binary
exists, waitForBoot fails with the boot-timeout error no later than T plus
one poll-interval after invocation, where the relevant poll-interval is that
of the phase that exhausts the deadline — the fixed 1000 ms interval of the
device-enumeration phase or the configured interval of the boot-property
phase, hence the bound T + max 1000 bootPollInterval; both phases share the
single deadline T measured from call start (time 0). -/
theorem c5_waitForBoot_timeout (cfg : BootCfg) (env : BootEnv) (adbPort : Int) (T : Nat)
    (hMiss : env.adbMissing = false)
    (hNever : ∀ t, strTrim (env.getpropOut t) ≠ "1")
    (hI : 1 ≤ cfg.bootPollInterval) :
    isBootTimeoutWithin (waitForBoot cfg env adbPort T (T + 1))
      (T + max 1000 cfg.bootPollInterval) := by
  obtain ⟨r, tf, hEq, hCase⟩ :=
    waitForDevice_spec env (waitForBootDeviceId adbPort) T hMiss (T + 1) 0 (by omega) (by omega)
  rcases hCase with ⟨hr, htf⟩ | ⟨hr, htf1, htf2⟩
  · subst hr
    obtain ⟨tf2, hEq2, htf3, htf4⟩ :=
      bootPollLoop_spec cfg env T hNever hI (T + 1) tf (by omega) (by omega)
    refine ⟨tf2, ?_, ?_⟩
    · simp only [waitForBoot, hEq]
      exact hEq2
    · have hM : 1000 ≤ max 1000 cfg.bootPollInterval := le_max_left _ _
      have hM2 : cfg.bootPollInterval ≤ max 1000 cfg.bootPollInterval := le_max_right _ _
      omega
  · subst hr
    refine ⟨tf, ?_, ?_⟩
    · simp only [waitForBoot, hEq]
    · have hM : 1000 ≤ max 1000 cfg.bootPollInterval := le_max_left _ _
      omega

/-- Environment for the C5 witness: adb present, the device never appears
and the boot property never reports complete. -/
def c5WitnessEnv : BootEnv :=
  { adbMissing := false, devicesErr := fun _ => false,
    adbDevicesOut := fun _ => "List of devices attached", getpropErr := fun _ => false,
    getpropOut := fun _ => "" }

/-- Witness for C5 at a concrete configuration and timeout. -/
theorem c5_waitForBoot_timeout_witness :
    isBootTimeoutWithin (waitForBoot ⟨2000⟩ c5WitnessEnv 5555 1 (1 + 1))
      (1 + max 1000 2000) :=
  c5_waitForBoot_timeout ⟨2000⟩ c5WitnessEnv 5555 1 rfl
    (fun t => show strTrim "" ≠ "1" by decide) (by decide)

/-- Configuration used by the port resolution of EmulatorAdapter.start.
Modelled from the spec: section 6 makes the default port configurable
(config.defaultEmulatorPort; the config source is absent from the
snapshot). -/
structure AdapterCfg where
  defaultEmulatorPort : Int

/-- The effective requested console port: options.port or the configured
default (src/unnamed/part_003 line 163). The JS or-operator falls back to
the default both when the requested port is absent and when it is the falsy
value 0. -/
def effectiveRequested (cfg : AdapterCfg) (reqPort : Option Int) : Int :=
  match reqPort with
  | none => cfg.defaultEmulatorPort
  | some p => if p = 0 then cfg.defaultEmulatorPort else p

/-- Rounding an odd console port up to the next even value
(src/unnamed/part_003 line 164). -/
def roundUpEven (p : Int) : Int := if p % 2 ≠ 0 then p + 1 else p

/-- Modelled from the spec: section 4.5, the Port Finder
(findAvailableEven, source absent from the snapshot) scans even-valued
candidates ascending from the start value to the inclusive end, testing each
against the availability oracle, and returns the first available one or
fails by exhaustion; fuel bounds the scan. -/
def findAvailableEven (avail : Int → Bool) : Nat → Int → Int → Option Int
  | 0, _, _ => none
  | fuel+1, p, e =>
    if e < p then none
    else if avail p then some p
    else findAvailableEven avail fuel (p + 2) e

/-- The port-resolution part of EmulatorAdapter.start (src/unnamed/part_003
lines 162-173): requested-or-default port, rounded up to even, then the
first available even port up to the fixed upper bound 5682. -/
def resolveConsolePort (cfg : AdapterCfg) (reqPort : Option Int) (avail : Int → Bool) :
    Option Int :=
  let base := roundUpEven (effectiveRequested cfg reqPort)
  findAvailableEven avail ((5682 - base).toNat / 2 + 1) base 5682

/-- The console/companion port pair returned by EmulatorAdapter.start: the
companion adb port always equals consolePort + 1 (src/unnamed/part_003
line 175). -/
def startPortPair (cfg : AdapterCfg) (reqPort : Option Int) (avail : Int → Bool) :
    Option (Int × Int) :=
  (resolveConsolePort cfg reqPort avail).map (fun c => (c, c + 1))

/-- The C7 claim wording, formalised as stated: the requested port defaults
to the configured default only when absent, is then rounded up to even, and
the first available even port at or above it up to 5682 is taken. -/
def claimResolvedPort (cfg : AdapterCfg) (reqPort : Option Int) (avail : Int → Bool) :
    Option Int :=
  let base := roundUpEven (match reqPort with
    | none => cfg.defaultEmulatorPort
    | some p => p)
  findAvailableEven avail ((5682 - base).toNat / 2 + 1) base 5682

/-- Counterexample to C7 as stated: with a requested port of 0, a default of
5554 and every port available, the code resolves the default 5554 (the JS
or-operator treats 0 as absent), while the claim as stated predicts port 0;
the two disagree. -/
theorem c7_zero_port_counterexample :
    resolveConsolePort ⟨5554⟩ (some 0) (fun _ => true) = some 5554 ∧
    claimResolvedPort ⟨5554⟩ (some 0) (fun _ => true) = some 0 ∧
    (5554 : Int) ≠ 0 := by
  refine ⟨by decide, by decide, by decide⟩

/-- q is the first available even port at or above base, up to the fixed
upper bound 5682 inclusive. -/
def firstAvailableEvenUpTo (avail : Int → Bool) (base q : Int) : Prop :=
  q % 2 = 0 ∧ base ≤ q ∧ q ≤ 5682 ∧ avail q = true ∧
  ∀ r : Int, r % 2 = 0 → base ≤ r → r < q → avail r = false

theorem findAvailableEven_spec (avail : Int → Bool) :
    ∀ fuel (p e q : Int), findAvailableEven avail fuel p e = some q →
      avail q = true ∧ p ≤ q ∧ q ≤ e ∧ (q - p) % 2 = 0 ∧
      ∀ r : Int, (r - p) % 2 = 0 → p ≤ r → r < q → avail r = false := by
  intro fuel
  induction fuel with
  | zero =>
    intro p e q h
    simp [findAvailableEven] at h
  | succ n ih =>
    intro p e q h
    rw [findAvailableEven] at h
    by_cases he : e < p
    · rw [if_pos he] at h
      cases h
    · rw [if_neg he] at h
      by_cases ha : avail p
      · rw [if_pos ha] at h
        injection h with h
        subst h
        exact ⟨ha, le_refl _, by omega, by omega, fun r h1 h2 h3 => by omega⟩
      · rw [if_neg ha] at h
        obtain ⟨hq1, hq2, hq3, hq4, hq5⟩ := ih (p + 2) e q h
        refine ⟨hq1, by omega, hq3, by omega, ?_⟩
        intro r h1 h2 h3
        by_cases hr : r = p
        · subst hr
          simpa using ha
        · exact hq5 r (by omega) (by omega) h3

/-- C7 (amended): for every start call whose port resolution succeeds, the
resolved console port is the requested port (defaulting to the configured
default port when absent or when given as the falsy value 0) rounded up to
the nearest even value when odd, then the first available even port at or
above that value up to the fixed upper bound 5682 inclusive; the returned
companion (adb) port always equals consolePort + 1. -/
theorem c7_port_resolution_amended (cfg : AdapterCfg) (reqPort : Option Int)
    (avail : Int → Bool) (c : Int)
    (h : resolveConsolePort cfg reqPort avail = some c) :
    firstAvailableEvenUpTo avail (roundUpEven (effectiveRequested cfg reqPort)) c ∧
    startPortPair cfg reqPort avail = some (c, c + 1) := by
  have h2 : startPortPair cfg reqPort avail = some (c, c + 1) := by
    simp [startPortPair, h]
  simp only [resolveConsolePort] at h
  obtain ⟨hq1, hq2, hq3, hq4, hq5⟩ := findAvailableEven_spec avail _ _ _ _ h
  have hbase : roundUpEven (effectiveRequested cfg reqPort) % 2 = 0 := by
    unfold roundUpEven
    by_cases hb : effectiveRequested cfg reqPort % 2 ≠ 0
    · rw [if_pos hb]
      omega
    · rw [if_neg hb]
      omega
  refine ⟨⟨by omega, hq2, hq3, hq1, ?_⟩, h2⟩
  intro r hr1 hr2 hr3
  exact hq5 r (by omega) hr2 hr3

/-- Availability oracle for the C7 witness: only port 5558 is free. -/
def c7Avail : Int → Bool := fun p => p == 5558

/-- Witness for C7 at a concrete odd requested port with some ports taken. -/
theorem c7_port_resolution_amended_witness :
    firstAvailableEvenUpTo c7Avail (roundUpEven (effectiveRequested ⟨5554⟩ (some 5555))) 5558 ∧
    startPortPair ⟨5554⟩ (some 5555) c7Avail = some (5558, 5558 + 1) :=
  c7_port_resolution_amended ⟨5554⟩ (some 5555) c7Avail 5558 (by decide)

/-- The session object as first inserted by startSession right after
workspace creation (src/src/core/session-manager.ts lines 81-91):
placeholder ports 0 and null pid. -/
def pendingSession (sid avdName now : String) : Session :=
  { sessionId := sid, avdName := avdName, emulatorPort := 0, adbPort := 0,
    createdAt := now, state := SessionState.CREATE_WORKSPACE,
    workspacePath := wsPathOf sid, emulatorPid := none }

/-- Registry states reachable under arbitrarily interleaved session
operations. The steps mirror the registry mutations of the Session Manager:
inserting the pending session after workspace creation (line 91, with a
fresh generated id), writing the allocated port pair and pid after emulator
start (lines 103-105; the console port is even, lies in the scanned range
5554-5682, and is not held by any live session — modelled from the spec:
sections 4.5 and 5 require the Port Finder bind-probe never to hand out a
port already bound by a running emulator, its source being absent), the pure
state-field updates (lines 95, 109, 115, 178), and entry removal by rollback
or stopSession (lines 201, 228). -/
inductive Reachable : List (String × Session) → Prop where
  | init : Reachable []
  | insertPending (r : List (String × Session)) (sid avdName now : String)
      (hr : Reachable r) (hfresh : alGet r sid = none) :
      Reachable (alSet sid (pendingSession sid avdName now) r)
  | assignPorts (r : List (String × Session)) (s : Session) (sid : String)
      (cport : Int) (pid : Nat)
      (hr : Reachable r) (hs : alGet r sid = some s) (hpend : s.emulatorPort = 0)
      (heven : cport % 2 = 0) (hlo : (5554 : Int) ≤ cport) (hhi : cport ≤ 5682)
      (havail : ∀ e ∈ r, e.2.emulatorPort ≠ cport) :
      Reachable (alSet sid
        { s with emulatorPort := cport, adbPort := cport + 1,
                 emulatorPid := some pid, state := SessionState.START_EMULATOR } r)
  | setState (r : List (String × Session)) (s : Session) (sid : String)
      (st : SessionState) (hr : Reachable r) (hs : alGet r sid = some s) :
      Reachable (alSet sid { s with state := st } r)
  | remove (r : List (String × Session)) (sid : String) (hr : Reachable r) :
      Reachable (alDel sid r)

/-- Port well-formedness of a single registry entry: either the placeholder
pair (0, 0) of a not-yet-started session, or an allocated pair with the
companion port one above an even console port in the scanned range. -/
def sessionPortOk (s : Session) : Prop :=
  (s.emulatorPort = 0 ∧ s.adbPort = 0) ∨
  (s.adbPort = s.emulatorPort + 1 ∧ s.emulatorPort % 2 = 0 ∧
   (5554 : Int) ≤ s.emulatorPort ∧ s.emulatorPort ≤ 5682)

/-- Registry invariant: every entry has well-formed ports and assigned
console ports are pairwise distinct across distinct sessions. -/
def regInv (r : List (String × Session)) : Prop :=
  (∀ e ∈ r, sessionPortOk e.2) ∧
  (∀ e1 ∈ r, ∀ e2 ∈ r, e1.1 ≠ e2.1 → e1.2.emulatorPort ≠ 0 → e2.2.emulatorPort ≠ 0 →
    e1.2.emulatorPort ≠ e2.2.emulatorPort)

theorem reachable_regInv {r : List (String × Session)} (h : Reachable r) : regInv r := by
  induction h with
  | init => exact ⟨by simp, by simp⟩
  | insertPending r sid avdName now hr hfresh ih =>
    obtain ⟨ih1, ih2⟩ := ih
    constructor
    · intro e he
      rcases mem_of_mem_alSet he with h1 | h1
      · subst h1
        exact Or.inl ⟨rfl, rfl⟩
      · exact ih1 e h1
    · intro e1 he1 e2 he2 hk h01 h02
      rcases mem_of_mem_alSet he1 with h1 | h1
      · subst h1
        exact absurd rfl h01
      · rcases mem_of_mem_alSet he2 with h2 | h2
        · subst h2
          exact absurd rfl h02
        · exact ih2 e1 h1 e2 h2 hk h01 h02
  | assignPorts r s sid cport pid hr hs hpend heven hlo hhi havail ih =>
    obtain ⟨ih1, ih2⟩ := ih
    constructor
    · intro e he
      rcases mem_of_mem_alSet he with h1 | h1
      · subst h1
        exact Or.inr ⟨rfl, heven, hlo, hhi⟩
      · exact ih1 e h1
    · intro e1 he1 e2 he2 hk h01 h02
      rcases mem_of_mem_alSet he1 with h1 | h1
      · rcases mem_of_mem_alSet he2 with h2 | h2
        · subst h1
          subst h2
          exact absurd rfl hk
        · subst h1
          exact fun hc => havail e2 h2 hc.symm
      · rcases mem_of_mem_alSet he2 with h2 | h2
        · subst h2
          exact fun hc => havail e1 h1 hc
        · exact ih2 e1 h1 e2 h2 hk h01 h02
  | setState r s sid st hr hs ih =>
    obtain ⟨ih1, ih2⟩ := ih
    constructor
    · intro e he
      rcases mem_of_mem_alSet he with h1 | h1
      · subst h1
        exact ih1 (sid, s) (alGet_mem hs)
      · exact ih1 e h1
    · intro e1 he1 e2 he2 hk h01 h02
      rcases mem_of_mem_alSet he1 with h1 | h1
      · rcases mem_of_mem_alSet he2 with h2 | h2
        · subst h1
          subst h2
          exact absurd rfl hk
        · subst h1
          exact ih2 (sid, s) (alGet_mem hs) e2 h2 hk h01 h02
      · rcases mem_of_mem_alSet he2 with h2 | h2
        · subst h2
          exact ih2 e1 h1 (sid, s) (alGet_mem hs) hk h01 h02
        · exact ih2 e1 h1 e2 h2 hk h01 h02
  | remove r sid hr ih =>
    obtain ⟨ih1, ih2⟩ := ih
    exact ⟨fun e he => ih1 e (mem_of_mem_alDel he),
      fun e1 he1 e2 he2 => ih2 e1 (mem_of_mem_alDel he1) e2 (mem_of_mem_alDel he2)⟩

/-- C2 (amended): in every reachable registry state, no two distinct
sessions that have been assigned their ports (console port nonzero) hold the
same console port or the same companion port; sessions between workspace
creation and emulator start hold the shared placeholder pair (0, 0). -/
theorem c2_assigned_ports_unique {r : List (String × Session)} (hr : Reachable r) :
    ∀ e1 ∈ r, ∀ e2 ∈ r, e1.1 ≠ e2.1 →
      e1.2.emulatorPort ≠ 0 → e2.2.emulatorPort ≠ 0 →
      e1.2.emulatorPort ≠ e2.2.emulatorPort ∧ e1.2.adbPort ≠ e2.2.adbPort := by
  obtain ⟨inv1, inv2⟩ := reachable_regInv hr
  intro e1 he1 e2 he2 hk h01 h02
  have hne := inv2 e1 he1 e2 he2 hk h01 h02
  refine ⟨hne, ?_⟩
  rcases inv1 e1 he1 with ⟨hp1, _⟩ | ⟨ha1, _⟩
  · exact absurd hp1 h01
  · rcases inv1 e2 he2 with ⟨hp2, _⟩ | ⟨ha2, _⟩
    · exact absurd hp2 h02
    · rw [ha1, ha2]
      omega

/-- The C2 claim wording as stated, quantified over every pair of distinct
registry entries with no restriction to assigned ports. -/
def portsUniqueAll (r : List (String × Session)) : Prop :=
  ∀ e1 ∈ r, ∀ e2 ∈ r, e1.1 ≠ e2.1 →
    e1.2.emulatorPort ≠ e2.2.emulatorPort ∧ e1.2.adbPort ≠ e2.2.adbPort

/-- A reachable registry holding two concurrently started sessions that are
both between workspace creation and emulator start. -/
def c2RegPending : List (String × Session) :=
  alSet "s6" (pendingSession "s6" "SniaffPhone" "2024-01-04T00:00:00Z")
    (alSet "s5" (pendingSession "s5" "SniaffPhone" "2024-01-04T00:00:00Z") [])

/-- Counterexample to C2 as stated: the registry can reachably hold two
distinct in-flight sessions both carrying the placeholder ports 0, so two
sessions present in the registry hold the same console port and the same
companion port. -/
theorem c2_placeholder_ports_counterexample :
    Reachable c2RegPending ∧ ¬ portsUniqueAll c2RegPending := by
  constructor
  · unfold c2RegPending
    exact Reachable.insertPending _ "s6" "SniaffPhone" "2024-01-04T00:00:00Z"
      (Reachable.insertPending _ "s5" "SniaffPhone" "2024-01-04T00:00:00Z"
        Reachable.init (by decide))
      (by decide)
  · intro hu
    have h := hu ("s5", pendingSession "s5" "SniaffPhone" "2024-01-04T00:00:00Z") (by decide)
      ("s6", pendingSession "s6" "SniaffPhone" "2024-01-04T00:00:00Z") (by decide) (by decide)
    exact h.1 rfl

/-- Session s5 after port assignment, for the C2 witness. -/
def c2SessionA5 : Session :=
  { pendingSession "s5" "SniaffPhone" "2024-01-04T00:00:00Z" with
    emulatorPort := 5554, adbPort := 5554 + 1, emulatorPid := some 11,
    state := SessionState.START_EMULATOR }

/-- Session s6 after port assignment, for the C2 witness. -/
def c2SessionA6 : Session :=
  { pendingSession "s6" "SniaffPhone" "2024-01-04T00:00:00Z" with
    emulatorPort := 5556, adbPort := 5556 + 1, emulatorPid := some 12,
    state := SessionState.START_EMULATOR }

/-- A reachable registry with two fully assigned sessions. -/
def c2RegAssigned : List (String × Session) :=
  alSet "s6" c2SessionA6 (alSet "s5" c2SessionA5 c2RegPending)

theorem c2RegAssigned_reachable : Reachable c2RegAssigned := by
  unfold c2RegAssigned c2SessionA6 c2SessionA5
  exact Reachable.assignPorts _ _ "s6" 5556 12
    (Reachable.assignPorts _ _ "s5" 5554 11
      (Reachable.insertPending _ "s6" "SniaffPhone" "2024-01-04T00:00:00Z"
        (Reachable.insertPending _ "s5" "SniaffPhone" "2024-01-04T00:00:00Z"
          Reachable.init (by decide))
        (by decide))
      (by decide) (by decide) (by decide) (by decide) (by decide) (by decide))
    (by decide) (by decide) (by decide) (by decide) (by decide) (by decide)

/-- Witness for C2 (amended) at a concrete reachable registry with two
assigned sessions. -/
theorem c2_assigned_ports_unique_witness :
    ((5554 : Int) ≠ 5556) ∧ ((5554 : Int) + 1 ≠ 5556 + 1) :=
  c2_assigned_ports_unique c2RegAssigned_reachable
    ("s5", c2SessionA5) (by decide) ("s6", c2SessionA6) (by decide)
    (by decide) (by decide) (by decide)
